import Mathlib

/-!
Shallow embedding of the CAPI resource-lifecycle core of the mcp-capi
repository (pkg/capi/client.go, pkg/capi/providers.go, pkg/capi/utils.go and
the tool handlers in cmd/mcp-capi), together with proofs about the claims of
its specification.

The external declarative resource store (a Kubernetes API server) is modelled
as an in-memory collection of typed objects keyed by (namespace, name);
`get` is a first-match lookup, `update` replaces the object with the same key,
`delete` removes it, `list` filters by namespace and label.  Machine-integer
replica counts are modelled as `Int`; the Go string values are kept verbatim.
-/

namespace McpCapi

/-- A status condition attached to a cluster or machine
(clusterv1.Condition: Type/Status/Severity/Reason/Message). -/
structure Condition where
  type : String
  status : String
  severity : String
  reason : String
  message : String
deriving DecidableEq, Repr

/-- A reference to another object (corev1.ObjectReference: APIVersion/Kind/Name). -/
structure ObjectReference where
  apiVersion : String
  kind : String
  name : String
deriving DecidableEq, Repr

/-- A CAPI Cluster object: metadata (namespace `ns`, name, labels, annotations)
plus the spec/status fields read by the core (clusterv1.Cluster).
`topologyVersion` models `Spec.Topology.Version` (`none` when `Spec.Topology` is nil). -/
structure Cluster where
  ns : String
  name : String
  labels : List (String × String)
  annotations : List (String × String)
  phase : String
  controlPlaneReady : Bool
  infrastructureReady : Bool
  conditions : List Condition
  infrastructureRef : Option ObjectReference
  controlPlaneRef : Option ObjectReference
  topologyVersion : Option String
deriving DecidableEq, Repr

/-- A CAPI Machine object (clusterv1.Machine): metadata plus the status fields
used by the core.  `nodeRef` is the name of the bound Node (`Status.NodeRef`). -/
structure Machine where
  ns : String
  name : String
  labels : List (String × String)
  annotations : List (String × String)
  conditions : List Condition
  nodeRef : Option String
deriving DecidableEq, Repr

/-- A KubeadmControlPlane object (controlplanev1.KubeadmControlPlane):
the fields read/written by the core are `Spec.Replicas` and `Spec.Version`. -/
structure KubeadmControlPlane where
  ns : String
  name : String
  replicas : Option Int
  version : String
deriving DecidableEq, Repr

/-- A CAPI MachineDeployment object: the fields read/written by the core. -/
structure MachineDeployment where
  ns : String
  name : String
  labels : List (String × String)
  clusterName : String
  replicas : Option Int
deriving DecidableEq, Repr

/-- A Kubernetes Node object (corev1.Node): the core reads and writes
`Spec.Unschedulable`. -/
structure Node where
  name : String
  unschedulable : Bool
deriving DecidableEq, Repr

/-- The external declarative resource store, modelled as typed object lists. -/
structure Store where
  clusters : List Cluster
  machines : List Machine
  kcps : List KubeadmControlPlane
  machineDeployments : List MachineDeployment
  nodes : List Node
deriving DecidableEq, Repr

/-- The label `clusterv1.ClusterNameLabel` used to list machines of a cluster. -/
def clusterNameLabel : String := "cluster.x-k8s.io/cluster-name"

/-- The annotation `clusterv1.PausedAnnotation` used by Pause/Resume. -/
def pausedMarkerKey : String := "cluster.x-k8s.io/paused"

/-- The label `clusterv1.MachineControlPlaneLabel` whose presence marks a
control-plane machine (checked by `util.IsControlPlaneMachine`). -/
def machineControlPlaneLabel : String := "cluster.x-k8s.io/control-plane"

/-- The condition type `clusterv1.MachineHealthCheckSucceededCondition`. -/
def healthCheckSucceededCondition : String := "HealthCheckSucceeded"

/-- Store get for clusters: `ctrlClient.Get` with an ObjectKey, first match on
(namespace, name). -/
def getCluster (s : Store) (nsp nm : String) : Option Cluster :=
  s.clusters.find? (fun c => c.ns == nsp && c.name == nm)

/-- Store get for machines. -/
def getMachine (s : Store) (nsp nm : String) : Option Machine :=
  s.machines.find? (fun m => m.ns == nsp && m.name == nm)

/-- Store get for KubeadmControlPlanes (`Client.GetKubeadmControlPlane`). -/
def getKubeadmControlPlane (s : Store) (nsp nm : String) : Option KubeadmControlPlane :=
  s.kcps.find? (fun k => k.ns == nsp && k.name == nm)

/-- Store get for MachineDeployments (`Client.GetMachineDeployment`). -/
def getMachineDeployment (s : Store) (nsp nm : String) : Option MachineDeployment :=
  s.machineDeployments.find? (fun d => d.ns == nsp && d.name == nm)

/-- Store get for nodes (nodes are cluster-scoped: keyed by name only). -/
def getNode (s : Store) (nm : String) : Option Node :=
  s.nodes.find? (fun n => n.name == nm)

/-- Whether an annotation/label list carries a key. -/
def hasKey (l : List (String × String)) (k : String) : Bool :=
  l.any (fun kv => kv.1 == k)

/-- Map-style insert on an annotation/label list: overwrite the existing key
if present, else append (Go `map[string]string` assignment). -/
def setKey (l : List (String × String)) (k v : String) : List (String × String) :=
  if hasKey l k then l.map (fun kv => if kv.1 == k then (k, v) else kv)
  else l ++ [(k, v)]

/-- Map-style delete on an annotation/label list (Go `delete(m, k)`). -/
def delKey (l : List (String × String)) (k : String) : List (String × String) :=
  l.filter (fun kv => !(kv.1 == k))

/-- Store update for clusters: replace the object carrying the same key
(`ctrlClient.Update`). -/
def replaceCluster (s : Store) (c' : Cluster) : Store :=
  { s with clusters := s.clusters.map (fun c => if c.ns == c'.ns && c.name == c'.name then c' else c) }

/-- Store delete for clusters (`ctrlClient.Delete`). -/
def removeCluster (s : Store) (nsp nm : String) : Store :=
  { s with clusters := s.clusters.filter (fun c => !(c.ns == nsp && c.name == nm)) }

/-- Store update for machines. -/
def replaceMachine (s : Store) (m' : Machine) : Store :=
  { s with machines := s.machines.map (fun m => if m.ns == m'.ns && m.name == m'.name then m' else m) }

/-- Store delete for machines. -/
def removeMachine (s : Store) (nsp nm : String) : Store :=
  { s with machines := s.machines.filter (fun m => !(m.ns == nsp && m.name == nm)) }

/-- Store update for KubeadmControlPlanes. -/
def replaceKcp (s : Store) (k' : KubeadmControlPlane) : Store :=
  { s with kcps := s.kcps.map (fun k => if k.ns == k'.ns && k.name == k'.name then k' else k) }

/-- Store update for MachineDeployments. -/
def replaceMachineDeployment (s : Store) (d' : MachineDeployment) : Store :=
  { s with machineDeployments :=
      s.machineDeployments.map (fun d => if d.ns == d'.ns && d.name == d'.name then d' else d) }

/-- Store update for nodes. -/
def replaceNode (s : Store) (n' : Node) : Store :=
  { s with nodes := s.nodes.map (fun n => if n.name == n'.name then n' else n) }

/-- Client.ListMachines: list machines in a namespace, filtered by the
cluster-name label when `clusterName` is non-empty. -/
def listMachines (s : Store) (nsp clusterName : String) : List Machine :=
  s.machines.filter (fun m =>
    m.ns == nsp && (clusterName == "" || m.labels.any (fun kv => kv.1 == clusterNameLabel && kv.2 == clusterName)))

/-- The conditions util `conditions.IsTrue`: the object carries a condition of
the given type with status "True". -/
def conditionsIsTrue (conds : List Condition) (t : String) : Bool :=
  conds.any (fun c => c.type == t && c.status == "True")

/-- The provider enum of pkg/capi/providers.go. -/
inductive Provider where
  | aws
  | azure
  | gcp
  | vsphere
  | unknown
deriving DecidableEq, Repr

/-- The typed errors of the core (spec §7 taxonomy).  `forceRequired` is the
spec's UnsafeDeleteError and carries the Go error message; `missingTarget` and
`invalidTarget` are MissingTargetError / InvalidTargetError; `noInfraRef` is
the error "cluster has no infrastructure reference"; `nodeNotBound` and
`invalidAddressing` are NodeNotBoundError / InvalidAddressingError. -/
inductive CapiError where
  | notFound (what : String)
  | forceRequired (msg : String)
  | missingTarget
  | invalidTarget (target : String)
  | noInfraRef
  | nodeNotBound
  | invalidAddressing
deriving DecidableEq, Repr

/-- Client.GetProviderForCluster: map the infrastructure reference kind to a
provider by case-sensitive exact match.  Mirrors the Go return pair
(Provider, error): a missing cluster or a nil infrastructure reference
returns `unknown` together with an error, an unmapped kind returns
`unknown` with no error. -/
def getProviderForCluster (s : Store) (nsp clusterName : String) : Provider × Option CapiError :=
  match getCluster s nsp clusterName with
  | none => (Provider.unknown, some (CapiError.notFound "cluster"))
  | some cluster =>
    match cluster.infrastructureRef with
    | none => (Provider.unknown, some CapiError.noInfraRef)
    | some r =>
      if r.kind == "AWSCluster" then (Provider.aws, none)
      else if r.kind == "AzureCluster" then (Provider.azure, none)
      else if r.kind == "GCPCluster" then (Provider.gcp, none)
      else if r.kind == "VSphereCluster" then (Provider.vsphere, none)
      else (Provider.unknown, none)

/-- ClusterStatus of pkg/capi/utils.go. -/
structure ClusterStatus where
  name : String
  ns : String
  phase : String
  ready : Bool
  controlPlaneReady : Bool
  infraReady : Bool
  version : String
  provider : Provider
  totalMachines : Nat
  readyMachines : Nat
  conditions : List Condition
deriving DecidableEq, Repr

/-- The status record Client.GetClusterStatus builds for a fetched cluster:
phase/readiness flags copied from the cluster, `ready` from the Ready
aggregate condition, the provider from GetProviderForCluster (its error is
discarded), machine counts from ListMachines where a machine counts as ready
iff `Status.NodeRef` is non-nil, and the version from the topology or, when
empty, from the referenced KubeadmControlPlane. -/
def clusterStatusOf (s : Store) (nsp nm : String) (cluster : Cluster) : ClusterStatus :=
  let version1 := match cluster.topologyVersion with
    | some v => if v != "" then v else ""
    | none => ""
  let provider := (getProviderForCluster s nsp nm).1
  let machines := listMachines s nsp nm
  let totalMachines := machines.length
  let readyMachines := machines.countP (fun m => m.nodeRef.isSome)
  let version2 := match cluster.controlPlaneRef with
    | some r =>
      if version1 == "" && r.kind == "KubeadmControlPlane" then
        match getKubeadmControlPlane s nsp r.name with
        | some kcp => if kcp.version != "" then kcp.version else version1
        | none => version1
      else version1
    | none => version1
  { name := cluster.name
    ns := cluster.ns
    phase := cluster.phase
    ready := conditionsIsTrue cluster.conditions "Ready"
    controlPlaneReady := cluster.controlPlaneReady
    infraReady := cluster.infrastructureReady
    version := version2
    provider := provider
    totalMachines := totalMachines
    readyMachines := readyMachines
    conditions := cluster.conditions }

/-- Client.GetClusterStatus: fetch the cluster and build its status record. -/
def getClusterStatus (s : Store) (nsp nm : String) : Option ClusterStatus :=
  match getCluster s nsp nm with
  | none => none
  | some cluster => some (clusterStatusOf s nsp nm cluster)

/-- ClusterHealthStatus of pkg/capi/client.go. -/
structure ClusterHealthStatus where
  healthy : Bool
  controlPlaneReady : Bool
  workersReady : Bool
  infraReady : Bool
  issues : List String
  warnings : List String
deriving DecidableEq, Repr

/-- A machine counts as ready in GetClusterHealth iff it carries a condition
of type "Ready" with status "True" (the inner loop breaks after the first
matching condition). -/
def machineReadyCond (m : Machine) : Bool :=
  m.conditions.any (fun c => c.type == "Ready" && c.status == "True")

/-- The issue/warning text "Type: Message" built from a cluster condition. -/
def condMsg (c : Condition) : String := c.type ++ ": " ++ c.message

/-- A single quote character, used verbatim in Go message strings. -/
def sq : String := String.singleton (Char.ofNat 39)

/-- The issue text "Only r/t machines are ready". -/
def workersIssueMsg (readyMachines totalMachines : Nat) : String :=
  "Only " ++ toString readyMachines ++ "/" ++ toString totalMachines ++ " machines are ready"

/-- The warning text for a phase that is set but not "Provisioned". -/
def phaseWarnMsg (phase : String) : String :=
  "Cluster phase is " ++ sq ++ phase ++ sq ++ ", expected " ++ sq ++ "Provisioned" ++ sq

/-- The first guard of the condition walk of GetClusterHealth:
`condition.Status != "True" && condition.Severity == "Error"`. -/
def condIsErrorIssue (c : Condition) : Bool :=
  c.status != "True" && c.severity == "Error"

/-- One step of the condition walk of GetClusterHealth, threading
(healthy, issues, warnings): a condition with status other than "True" and
severity "Error" appends an issue and clears healthy; with severity
"Warning" it appends a warning; anything else is ignored. -/
def healthCondStep (acc : Bool × List String × List String) (c : Condition) :
    Bool × List String × List String :=
  if condIsErrorIssue c then
    (false, acc.2.1 ++ [condMsg c], acc.2.2)
  else if c.status != "True" && c.severity == "Warning" then
    (acc.1, acc.2.1, acc.2.2 ++ [condMsg c])
  else acc

/-- Client.GetClusterHealth: build the health verdict from the cluster status
and the cluster's machines, following the Go statement order: control-plane
flag, infrastructure flag, worker readiness (ready-condition count versus
total, requiring a non-zero total), the condition walk, then the phase
warning. -/
def getClusterHealth (s : Store) (nsp nm : String) : Option ClusterHealthStatus :=
  match getClusterStatus s nsp nm with
  | none => none
  | some status =>
    let healthy1 := true
    let issues1 : List String := []
    let healthy2 := if !status.controlPlaneReady then false else healthy1
    let issues2 := if !status.controlPlaneReady then issues1 ++ ["Control plane is not ready"] else issues1
    let healthy3 := if !status.infraReady then false else healthy2
    let issues3 := if !status.infraReady then issues2 ++ ["Infrastructure is not ready"] else issues2
    let machines := listMachines s nsp nm
    let totalMachines := machines.length
    let readyMachines := machines.countP machineReadyCond
    let workersReady := decide (readyMachines = totalMachines) && decide (0 < totalMachines)
    let healthy4 := if !workersReady then false else healthy3
    let issues4 := if !workersReady then issues3 ++ [workersIssueMsg readyMachines totalMachines] else issues3
    let walked := status.conditions.foldl healthCondStep (healthy4, issues4, [])
    let warnings2 := if status.phase != "Provisioned" && status.phase != "" then
        walked.2.2 ++ [phaseWarnMsg status.phase]
      else walked.2.2
    some { healthy := walked.1
           controlPlaneReady := status.controlPlaneReady
           workersReady := workersReady
           infraReady := status.infraReady
           issues := walked.2.1
           warnings := warnings2 }

/-- The control-plane-machine check `util.IsControlPlaneMachine`: the machine
carries the control-plane label. -/
def isControlPlaneMachine (m : Machine) : Bool :=
  hasKey m.labels machineControlPlaneLabel

/-- The health check of DeleteMachine: a HealthCheckSucceeded condition with
status True (the Go loop returns on the first match). -/
def machineHealthCheckSucceeded (m : Machine) : Bool :=
  m.conditions.any (fun c => c.type == healthCheckSucceededCondition && c.status == "True")

/-- Client.DeleteMachine: fetch the machine; unless forced, refuse with the
spec's UnsafeDeleteError when the machine has a HealthCheckSucceeded=True
condition or is a control-plane machine; otherwise delete it. -/
def deleteMachine (s : Store) (nsp nm : String) (force : Bool) : Except CapiError Store :=
  match getMachine s nsp nm with
  | none => Except.error (CapiError.notFound "machine")
  | some machine =>
    if !force && machineHealthCheckSucceeded machine then
      Except.error (CapiError.forceRequired
        ("machine " ++ machine.name ++ " is healthy, use force=true to delete anyway"))
    else if !force && isControlPlaneMachine machine then
      Except.error (CapiError.forceRequired
        ("cannot delete control plane machine " ++ machine.name ++ " without force=true"))
    else
      Except.ok (removeMachine s nsp nm)

/-- Client.PauseCluster: fetch the cluster, set the paused annotation to
"true", and update. -/
def pauseCluster (s : Store) (nsp nm : String) : Except CapiError Store :=
  match getCluster s nsp nm with
  | none => Except.error (CapiError.notFound "cluster")
  | some cluster =>
    Except.ok (replaceCluster s
      { cluster with annotations := setKey cluster.annotations pausedMarkerKey "true" })

/-- Client.ResumeCluster: fetch the cluster, delete the paused annotation,
and update. -/
def resumeCluster (s : Store) (nsp nm : String) : Except CapiError Store :=
  match getCluster s nsp nm with
  | none => Except.error (CapiError.notFound "cluster")
  | some cluster =>
    Except.ok (replaceCluster s
      { cluster with annotations := delKey cluster.annotations pausedMarkerKey })

/-- Client.DeleteCluster: fetch the cluster, then delete it (no safety check
at this layer). -/
def deleteCluster (s : Store) (nsp nm : String) : Except CapiError Store :=
  match getCluster s nsp nm with
  | none => Except.error (CapiError.notFound "cluster")
  | some _ => Except.ok (removeCluster s nsp nm)

/-- The observable outcome kinds of the capi_delete_cluster tool handler
(createDeleteClusterHandler): missing arguments, a failed status read, the
refused safety-check result (the text beginning "SAFETY CHECK FAILED", the
spec's UnsafeDeleteError — returned without issuing any delete), a failed
delete call, or an initiated deletion. -/
inductive DeleteClusterOutcome where
  | argError
  | statusError
  | safetyCheckFailed
  | deleteError
  | deletionInitiated
deriving DecidableEq, Repr

/-- createDeleteClusterHandler: validate arguments, read the cluster status,
and, unless forced, refuse when the status's Ready aggregate condition is
true — returning the safety-check result without calling DeleteCluster; in
every other case call DeleteCluster. -/
def deleteClusterHandler (s : Store) (nsp nm : String) (force : Bool) :
    DeleteClusterOutcome × Store :=
  if nsp == "" then (DeleteClusterOutcome.argError, s)
  else if nm == "" then (DeleteClusterOutcome.argError, s)
  else
    match getClusterStatus s nsp nm with
    | none => (DeleteClusterOutcome.statusError, s)
    | some status =>
      if !force && status.ready then (DeleteClusterOutcome.safetyCheckFailed, s)
      else
        match deleteCluster s nsp nm with
        | Except.error _ => (DeleteClusterOutcome.deleteError, s)
        | Except.ok s2 => (DeleteClusterOutcome.deletionInitiated, s2)

/-- One store access issued by a scaling operation (read or write, with the
key it targets). -/
inductive StoreOp where
  | getKcp (ns name : String)
  | updateKcp (ns name : String)
  | getMd (ns name : String)
  | updateMd (ns name : String)
deriving DecidableEq, Repr

/-- Client.ScaleControlPlane: fetch the KubeadmControlPlane by name, set its
replica count, and update.  The second component records the store accesses
issued. -/
def scaleControlPlane (s : Store) (nsp nm : String) (replicas : Int) :
    Except CapiError Store × List StoreOp :=
  match getKubeadmControlPlane s nsp nm with
  | none => (Except.error (CapiError.notFound "KubeadmControlPlane"), [StoreOp.getKcp nsp nm])
  | some kcp =>
    (Except.ok (replaceKcp s { kcp with replicas := some replicas }),
     [StoreOp.getKcp nsp nm, StoreOp.updateKcp nsp nm])

/-- Client.ScaleMachineDeployment: fetch the MachineDeployment, set its
replica count, and update. -/
def scaleMachineDeployment (s : Store) (nsp nm : String) (replicas : Int) :
    Except CapiError Store × List StoreOp :=
  match getMachineDeployment s nsp nm with
  | none => (Except.error (CapiError.notFound "MachineDeployment"), [StoreOp.getMd nsp nm])
  | some md =>
    (Except.ok (replaceMachineDeployment s { md with replicas := some replicas }),
     [StoreOp.getMd nsp nm, StoreOp.updateMd nsp nm])

/-- Client.ScaleCluster: route on the target.  "controlplane" scales the
KubeadmControlPlane named like the cluster; "workers" requires a non-empty
machine deployment name (else MissingTargetError) and scales that
MachineDeployment; any other target is InvalidTargetError.  Both validation
failures happen before any store access (empty access list). -/
def scaleCluster (s : Store) (nsp clusterName target : String) (replicas : Int)
    (machineDeploymentName : String) : Except CapiError Store × List StoreOp :=
  if target == "controlplane" then scaleControlPlane s nsp clusterName replicas
  else if target == "workers" then
    if machineDeploymentName == "" then (Except.error CapiError.missingTarget, [])
    else scaleMachineDeployment s nsp machineDeploymentName replicas
  else (Except.error (CapiError.invalidTarget target), [])

/-- CreateClusterOptions of pkg/capi/client.go (the fields that shape the
created object). -/
structure CreateClusterOptions where
  name : String
  ns : String
  infraProvider : String
deriving DecidableEq, Repr

/-- The getInfraKind helper of pkg/capi/client.go. -/
def getInfraKind (provider : String) : String :=
  if provider == "aws" then "AWSCluster"
  else if provider == "azure" then "AzureCluster"
  else if provider == "gcp" then "GCPCluster"
  else if provider == "vsphere" then "VSphereCluster"
  else "Cluster"

/-- The getInfraAPIVersion helper of pkg/capi/client.go. -/
def getInfraAPIVersion (provider : String) : String :=
  if provider == "aws" then "infrastructure.cluster.x-k8s.io/v1beta2"
  else "infrastructure.cluster.x-k8s.io/v1beta1"

/-- The Cluster object Client.CreateCluster builds: its control-plane
reference names a KubeadmControlPlane called "{name}-control-plane" and its
infrastructure reference names "{name}". -/
def createClusterObject (opts : CreateClusterOptions) : Cluster :=
  { ns := opts.ns
    name := opts.name
    labels := [("cluster.x-k8s.io/provider", opts.infraProvider)]
    annotations := []
    phase := ""
    controlPlaneReady := false
    infrastructureReady := false
    conditions := []
    infrastructureRef := some
      { apiVersion := getInfraAPIVersion opts.infraProvider
        kind := getInfraKind opts.infraProvider
        name := opts.name }
    controlPlaneRef := some
      { apiVersion := "controlplane.cluster.x-k8s.io/v1beta1"
        kind := "KubeadmControlPlane"
        name := opts.name ++ "-control-plane" }
    topologyVersion := none }

/-- NodeOperationOptions of the node lifecycle operations. -/
structure NodeOperationOptions where
  ns : String
  machineName : String
  nodeName : String
  ignoreDaemonSets : Bool
  deleteLocalData : Bool
  force : Bool
  gracePeriodSeconds : Option Int
deriving DecidableEq, Repr

/-- Modelled from the spec: the node Reference Resolver (spec §4.1); its
implementation file is not among the sources.  A direct node name is used
as-is; otherwise a non-empty namespace and machine name are required, the
machine is read and its bound-node reference used (NodeNotBoundError when
absent); with neither addressing mode usable, InvalidAddressingError before
any store access. -/
def resolveNodeName (s : Store) (opts : NodeOperationOptions) : Except CapiError String :=
  if opts.nodeName != "" then Except.ok opts.nodeName
  else if opts.ns != "" && opts.machineName != "" then
    match getMachine s opts.ns opts.machineName with
    | none => Except.error (CapiError.notFound "machine")
    | some m =>
      match m.nodeRef with
      | some n => Except.ok n
      | none => Except.error CapiError.nodeNotBound
  else Except.error CapiError.invalidAddressing

/-- The signal Client.DrainNode hands back: `cordonedOnly` is the error whose
message contains "has been cordoned" (the marker the handler tests with
strings.Contains), `failed` is any other error message. -/
inductive DrainSignal where
  | cordonedOnly (nodeName : String)
  | failed (msg : String)
deriving DecidableEq, Repr

/-- Whether the drain error message contains the "has been cordoned" marker.
Only the `cordonedOnly` signal's message carries it. -/
def drainSignalHasCordonMarker : DrainSignal → Bool
  | DrainSignal.cordonedOnly _ => true
  | DrainSignal.failed _ => false

/-- Modelled from the spec: Client.DrainNode (spec §4.5 Drain); its
implementation file is not among the sources.  Resolve the node, cordon it by
setting `unschedulable` and updating, and always return the cordoned-only
signal — pod eviction is not performed; the signal's error message contains
"has been cordoned" so the handler can recognise it. -/
def drainNode (s : Store) (opts : NodeOperationOptions) : Store × Option DrainSignal :=
  match resolveNodeName s opts with
  | Except.error e => (s, some (DrainSignal.failed ("failed to resolve node: " ++ reprStr e)))
  | Except.ok nodeName =>
    match getNode s nodeName with
    | none => (s, some (DrainSignal.failed "failed to get node"))
    | some node =>
      (replaceNode s { node with unschedulable := true },
       some (DrainSignal.cordonedOnly nodeName))

/-- The observable outcome kinds of the capi_drain_node tool handler:
a rejected addressing combination, the cordoned-but-not-evicted report (the
text "Node drain partially implemented ... Node has been cordoned"), any
other drain failure, or the full-success report claiming pods were evicted. -/
inductive DrainOutcome where
  | addressingError
  | cordonOnlyReport
  | drainError
  | fullSuccessReport
deriving DecidableEq, Repr

/-- createDrainNodeHandler: validate that either a node name or both
namespace and machine name are present, call DrainNode, and classify the
result: an error carrying the "has been cordoned" marker becomes the
cordoned-but-not-evicted report, any other error a drain failure, and a nil
error the full-success report. -/
def drainNodeHandler (s : Store) (opts : NodeOperationOptions) : DrainOutcome × Store :=
  if opts.nodeName == "" && (opts.ns == "" || opts.machineName == "") then
    (DrainOutcome.addressingError, s)
  else
    match drainNode s opts with
    | (s2, some sig) =>
      if drainSignalHasCordonMarker sig then (DrainOutcome.cordonOnlyReport, s2)
      else (DrainOutcome.drainError, s2)
    | (s2, none) => (DrainOutcome.fullSuccessReport, s2)

/-- Whether a condition lands in the warning branch of the condition walk:
not an error issue, status other than "True", severity "Warning". -/
def condIsWarning (c : Condition) : Bool :=
  !(condIsErrorIssue c) && (c.status != "True" && c.severity == "Warning")

/-- The issue texts contributed by the condition walk, in list order. -/
def errorCondIssues (conds : List Condition) : List String :=
  conds.filterMap (fun c => if condIsErrorIssue c then some (condMsg c) else none)

/-- The warning texts contributed by the condition walk, in list order. -/
def warningCondMsgs (conds : List Condition) : List String :=
  conds.filterMap (fun c => if condIsWarning c then some (condMsg c) else none)

/-- Whether no condition lands in the error branch of the condition walk. -/
def noErrorConds (conds : List Condition) : Bool :=
  conds.all (fun c => !(condIsErrorIssue c))

/-- The number of machines ListMachines returns for the cluster. -/
def totalMachineCount (s : Store) (nsp nm : String) : Nat :=
  (listMachines s nsp nm).length

/-- The number of those machines carrying a Ready=True condition. -/
def readyMachineCondCount (s : Store) (nsp nm : String) : Nat :=
  (listMachines s nsp nm).countP machineReadyCond

/-- The number of those machines with a non-nil bound-node reference. -/
def nodeRefMachineCount (s : Store) (nsp nm : String) : Nat :=
  (listMachines s nsp nm).countP (fun m => m.nodeRef.isSome)

/-- The worker-readiness flag GetClusterHealth computes: ready-condition
count equals total count and the total is positive. -/
def workersReadyFlag (s : Store) (nsp nm : String) : Bool :=
  decide (readyMachineCondCount s nsp nm = totalMachineCount s nsp nm) &&
    decide (0 < totalMachineCount s nsp nm)

/-- Closed-form statement of the verdict GetClusterHealth produces for a
fetched cluster, exhibiting the discovery order of issues and warnings
(control-plane, infrastructure, workers, conditions, then the phase
warning). -/
def healthSpec (s : Store) (nsp nm : String) (c : Cluster) : ClusterHealthStatus :=
  { healthy := c.controlPlaneReady && c.infrastructureReady && workersReadyFlag s nsp nm &&
      noErrorConds c.conditions
    controlPlaneReady := c.controlPlaneReady
    workersReady := workersReadyFlag s nsp nm
    infraReady := c.infrastructureReady
    issues :=
      (if c.controlPlaneReady then [] else ["Control plane is not ready"]) ++
      (if c.infrastructureReady then [] else ["Infrastructure is not ready"]) ++
      (if workersReadyFlag s nsp nm then []
       else [workersIssueMsg (readyMachineCondCount s nsp nm) (totalMachineCount s nsp nm)]) ++
      errorCondIssues c.conditions
    warnings :=
      warningCondMsgs c.conditions ++
      (if c.phase != "Provisioned" && c.phase != "" then [phaseWarnMsg c.phase] else []) }

/-- The provider lookup table: case-sensitive exact match on the
infrastructure kind string; anything unmapped is unknown. -/
def kindToProvider (kind : String) : Provider :=
  if kind == "AWSCluster" then Provider.aws
  else if kind == "AzureCluster" then Provider.azure
  else if kind == "GCPCluster" then Provider.gcp
  else if kind == "VSphereCluster" then Provider.vsphere
  else Provider.unknown

/-! Concrete fixtures used to evaluate the definitions at specific inputs. -/

/-- A Ready=True condition. -/
def readyCond : Condition :=
  { type := "Ready", status := "True", severity := "", reason := "", message := "" }

/-- A HealthCheckSucceeded=True condition. -/
def healthOkCond : Condition :=
  { type := "HealthCheckSucceeded", status := "True", severity := "", reason := "", message := "" }

/-- A demo cluster default/web that is fully ready and carries the Ready
aggregate condition. -/
def clusterA : Cluster :=
  { ns := "default", name := "web", labels := [], annotations := []
    phase := "Provisioned", controlPlaneReady := true, infrastructureReady := true
    conditions := [readyCond]
    infrastructureRef := some
      { apiVersion := "infrastructure.cluster.x-k8s.io/v1beta2", kind := "AWSCluster", name := "web" }
    controlPlaneRef := none, topologyVersion := none }

/-- A worker machine of default/web carrying a Ready=True condition and a
bound node. -/
def mReady (nm : String) : Machine :=
  { ns := "default", name := nm, labels := [(clusterNameLabel, "web")], annotations := []
    conditions := [readyCond], nodeRef := some (nm ++ "-node") }

/-- A worker machine of default/web with no conditions and no bound node. -/
def mNotReady (nm : String) : Machine :=
  { ns := "default", name := nm, labels := [(clusterNameLabel, "web")], annotations := []
    conditions := [], nodeRef := none }

/-- A healthy machine (HealthCheckSucceeded=True) that is not control-plane. -/
def mHealthy : Machine :=
  { ns := "default", name := "mh", labels := [(clusterNameLabel, "web")], annotations := []
    conditions := [healthOkCond], nodeRef := some "mh-node" }

/-- A machine of default/web carrying a Ready=True condition but no bound
node reference. -/
def mReadyNoNode : Machine :=
  { ns := "default", name := "mrnn", labels := [(clusterNameLabel, "web")], annotations := []
    conditions := [readyCond], nodeRef := none }

/-- A cluster with no infrastructure reference. -/
def clusterNoRef : Cluster :=
  { ns := "default", name := "noref", labels := [], annotations := []
    phase := "", controlPlaneReady := false, infrastructureReady := false
    conditions := [], infrastructureRef := none, controlPlaneRef := none, topologyVersion := none }

/-- Store fixture: default/web with two ready machines and one not ready. -/
def storeB : Store :=
  { clusters := [clusterA], machines := [mReady "m1", mReady "m2", mNotReady "m3"]
    kcps := [], machineDeployments := [], nodes := [] }

/-- Store fixture for the ready-count claim: one machine that has a
Ready=True condition but no bound node. -/
def storeC9 : Store :=
  { clusters := [clusterA], machines := [mReadyNoNode]
    kcps := [], machineDeployments := [], nodes := [] }

/-- Store fixture with a healthy non-control-plane machine. -/
def storeC2 : Store :=
  { clusters := [clusterA], machines := [mHealthy]
    kcps := [], machineDeployments := [], nodes := [] }

/-- Store fixture with a cluster lacking an infrastructure reference. -/
def storeC6 : Store :=
  { clusters := [clusterNoRef], machines := []
    kcps := [], machineDeployments := [], nodes := [] }

/-- Store fixture with a schedulable node worker-1. -/
def storeC7 : Store :=
  { clusters := [], machines := [], kcps := [], machineDeployments := []
    nodes := [{ name := "worker-1", unschedulable := false }] }

/-- Drain options addressing worker-1 directly. -/
def optsC7 : NodeOperationOptions :=
  { ns := "", machineName := "", nodeName := "worker-1"
    ignoreDaemonSets := false, deleteLocalData := false, force := false
    gracePeriodSeconds := none }

/-- The status record computed for the storeC9 fixture. -/
def statusC9 : ClusterStatus := clusterStatusOf storeC9 "default" "web" clusterA

/-- The health verdict computed for the storeB fixture. -/
def healthB : ClusterHealthStatus := healthSpec storeB "default" "web" clusterA

/-! Helper lemmas about the store model. -/

/-- Deleting every element matching a predicate makes a first-match lookup
for that predicate fail. -/
lemma find?_filter_not {α : Type} (l : List α) (p : α → Bool) :
    (l.filter (fun x => !(p x))).find? p = none := by
  rw [List.find?_eq_none]
  intro x hx
  have hmem := List.mem_filter.mp hx
  simpa using hmem.2

/-- Replacing every element matching a predicate by a fixed element that
itself matches makes a first-match lookup return that element, provided the
lookup previously succeeded. -/
lemma find?_map_if {α : Type} (l : List α) (p : α → Bool) (c' : α) (hc' : p c' = true)
    (c : α) (h : l.find? p = some c) :
    (l.map (fun x => if p x then c' else x)).find? p = some c' := by
  induction l with
  | nil => simp at h
  | cons a l ih =>
    by_cases ha : p a = true
    · simp [List.find?_cons, ha, hc']
    · rw [List.find?_cons_of_neg _ (by simp [ha])] at h
      simp only [List.map_cons, if_neg (by simp [ha] : ¬ p a = true)]
      rw [List.find?_cons_of_neg _ (by simp [ha])]
      exact ih h

/-- A successful cluster lookup pins the object's namespace and name. -/
lemma getCluster_key (s : Store) (nsp nm : String) (c : Cluster)
    (h : getCluster s nsp nm = some c) : c.ns = nsp ∧ c.name = nm := by
  have hp := List.find?_some h
  simp only [Bool.and_eq_true, beq_iff_eq] at hp
  exact hp

/-- A successful machine lookup pins the object's namespace and name. -/
lemma getMachine_key (s : Store) (nsp nm : String) (m : Machine)
    (h : getMachine s nsp nm = some m) : m.ns = nsp ∧ m.name = nm := by
  have hp := List.find?_some h
  simp only [Bool.and_eq_true, beq_iff_eq] at hp
  exact hp

/-- A successful node lookup pins the object's name. -/
lemma getNode_key (s : Store) (nm : String) (n : Node)
    (h : getNode s nm = some n) : n.name = nm := by
  have hp := List.find?_some h
  simpa using hp

/-- After an update that keeps the key, looking the key up returns the
updated object. -/
lemma getCluster_replaceCluster (s : Store) (nsp nm : String) (c c' : Cluster)
    (h : getCluster s nsp nm = some c) (h1 : c'.ns = nsp) (h2 : c'.name = nm) :
    getCluster (replaceCluster s c') nsp nm = some c' := by
  unfold getCluster replaceCluster
  simp only [h1, h2]
  exact find?_map_if s.clusters _ c' (by simp [h1, h2]) c h

/-- After an update that keeps the key, looking the node's key up returns the
updated node. -/
lemma getNode_replaceNode (s : Store) (nm : String) (n n' : Node)
    (h : getNode s nm = some n) (h1 : n'.name = nm) :
    getNode (replaceNode s n') nm = some n' := by
  unfold getNode replaceNode
  simp only [h1]
  exact find?_map_if s.nodes _ n' (by simp [h1]) n h

/-- Deleting a cluster makes its lookup fail. -/
lemma getCluster_removeCluster (s : Store) (nsp nm : String) :
    getCluster (removeCluster s nsp nm) nsp nm = none := by
  unfold getCluster removeCluster
  exact find?_filter_not s.clusters _

/-- Deleting a machine makes its lookup fail. -/
lemma getMachine_removeMachine (s : Store) (nsp nm : String) :
    getMachine (removeMachine s nsp nm) nsp nm = none := by
  unfold getMachine removeMachine
  exact find?_filter_not s.machines _

/-- The paused marker is present after a map-style insert of its key. -/
lemma hasKey_setKey (l : List (String × String)) (k v : String) :
    hasKey (setKey l k v) k = true := by
  unfold setKey
  by_cases h : hasKey l k = true
  · rw [if_pos h]
    unfold hasKey at h ⊢
    simp only [List.any_eq_true] at h ⊢
    obtain ⟨kv, hmem, hkv⟩ := h
    refine ⟨(k, v), List.mem_map.mpr ⟨kv, hmem, ?_⟩, by simp⟩
    simp [hkv]
  · rw [if_neg h]
    unfold hasKey
    simp

/-- The paused marker is absent after a map-style delete of its key. -/
lemma hasKey_delKey (l : List (String × String)) (k : String) :
    hasKey (delKey l k) k = false := by
  unfold hasKey delKey
  apply Bool.eq_false_iff.mpr
  intro hany
  rw [List.any_eq_true] at hany
  obtain ⟨kv, hmem, hkv⟩ := hany
  have h2 := (List.mem_filter.mp hmem).2
  rw [hkv] at h2
  simp at h2

/-- Head unrolling of the condition-walk issue list, error branch. -/
lemma errorCondIssues_cons_pos (c : Condition) (cs : List Condition)
    (hb : condIsErrorIssue c = true) :
    errorCondIssues (c :: cs) = condMsg c :: errorCondIssues cs := by
  simp [errorCondIssues, List.filterMap_cons, hb]

/-- Head unrolling of the condition-walk issue list, other branches. -/
lemma errorCondIssues_cons_neg (c : Condition) (cs : List Condition)
    (hb : condIsErrorIssue c = false) :
    errorCondIssues (c :: cs) = errorCondIssues cs := by
  simp [errorCondIssues, List.filterMap_cons, hb]

/-- Head unrolling of the condition-walk warning list, warning branch. -/
lemma warningCondMsgs_cons_pos (c : Condition) (cs : List Condition)
    (hb : condIsWarning c = true) :
    warningCondMsgs (c :: cs) = condMsg c :: warningCondMsgs cs := by
  simp [warningCondMsgs, List.filterMap_cons, hb]

/-- Head unrolling of the condition-walk warning list, other branches. -/
lemma warningCondMsgs_cons_neg (c : Condition) (cs : List Condition)
    (hb : condIsWarning c = false) :
    warningCondMsgs (c :: cs) = warningCondMsgs cs := by
  simp [warningCondMsgs, List.filterMap_cons, hb]

/-- Head unrolling of the no-error-condition flag. -/
lemma noErrorConds_cons (c : Condition) (cs : List Condition) :
    noErrorConds (c :: cs) = (!(condIsErrorIssue c) && noErrorConds cs) := by
  simp [noErrorConds, List.all_cons]

/-- Unrolling the condition walk of GetClusterHealth: the walk conjoins the
no-error-condition flag onto `healthy` and appends the error-branch and
warning-branch texts, in list order, to the accumulated issues and
warnings. -/
lemma healthCondStep_foldl (conds : List Condition) (h : Bool) (is ws : List String) :
    conds.foldl healthCondStep (h, is, ws) =
      (h && noErrorConds conds, is ++ errorCondIssues conds, ws ++ warningCondMsgs conds) := by
  induction conds generalizing h is ws with
  | nil => simp [noErrorConds, errorCondIssues, warningCondMsgs]
  | cons c cs ih =>
    rw [List.foldl_cons]
    by_cases hb1 : condIsErrorIssue c = true
    · have hstep : healthCondStep (h, is, ws) c = (false, is ++ [condMsg c], ws) := by
        simp [healthCondStep, hb1]
      have hw : condIsWarning c = false := by simp [condIsWarning, hb1]
      rw [hstep, ih, noErrorConds_cons, errorCondIssues_cons_pos c cs hb1,
        warningCondMsgs_cons_neg c cs hw, hb1]
      simp
    · have hb1' : condIsErrorIssue c = false := by
        cases hcb : condIsErrorIssue c
        · rfl
        · exact absurd hcb hb1
      by_cases hb2 : (c.status != "True" && c.severity == "Warning") = true
      · have hstep : healthCondStep (h, is, ws) c = (h, is, ws ++ [condMsg c]) := by
          simp [healthCondStep, hb1', hb2]
        have hw : condIsWarning c = true := by simp [condIsWarning, hb1', hb2]
        rw [hstep, ih, noErrorConds_cons, errorCondIssues_cons_neg c cs hb1',
          warningCondMsgs_cons_pos c cs hw, hb1']
        simp
      · have hb2' : (c.status != "True" && c.severity == "Warning") = false := by
          cases hcb : (c.status != "True" && c.severity == "Warning")
          · rfl
          · exact absurd hcb hb2
        have hstep : healthCondStep (h, is, ws) c = (h, is, ws) := by
          simp [healthCondStep, hb1', hb2']
        have hw : condIsWarning c = false := by simp [condIsWarning, hb1', hb2']
        rw [hstep, ih, noErrorConds_cons, errorCondIssues_cons_neg c cs hb1',
          warningCondMsgs_cons_neg c cs hw, hb1']
        simp

/-- GetClusterHealth on a fetched cluster produces exactly the closed-form
verdict `healthSpec`. -/
lemma getClusterHealth_eq (s : Store) (nsp nm : String) (c : Cluster)
    (h : getCluster s nsp nm = some c) :
    getClusterHealth s nsp nm = some (healthSpec s nsp nm c) := by
  unfold getClusterHealth getClusterStatus
  rw [h]
  simp only [clusterStatusOf, healthSpec, healthCondStep_foldl, readyMachineCondCount,
    totalMachineCount]
  rw [show (decide (List.countP machineReadyCond (listMachines s nsp nm) =
      (listMachines s nsp nm).length) && decide (0 < (listMachines s nsp nm).length)) =
      workersReadyFlag s nsp nm from rfl]
  split_ifs <;> simp_all [List.append_assoc]

/-- A cluster health verdict can only exist for a fetchable cluster. -/
lemma getClusterHealth_some_inv (s : Store) (nsp nm : String) (h : ClusterHealthStatus)
    (hh : getClusterHealth s nsp nm = some h) :
    ∃ c, getCluster s nsp nm = some c ∧ h = healthSpec s nsp nm c := by
  cases hg : getCluster s nsp nm with
  | none =>
    rw [getClusterHealth, getClusterStatus, hg] at hh
    cases hh
  | some c =>
    refine ⟨c, rfl, ?_⟩
    have := getClusterHealth_eq s nsp nm c hg
    rw [this] at hh
    exact (Option.some.injEq _ _ ▸ hh).symm

/-- A cluster status record can only exist for a fetchable cluster. -/
lemma getClusterStatus_some_inv (s : Store) (nsp nm : String) (st : ClusterStatus)
    (hst : getClusterStatus s nsp nm = some st) :
    ∃ c, getCluster s nsp nm = some c ∧ st = clusterStatusOf s nsp nm c := by
  cases hg : getCluster s nsp nm with
  | none => rw [getClusterStatus, hg] at hst; cases hst
  | some c =>
    rw [getClusterStatus, hg] at hst
    exact ⟨c, rfl, (Option.some.injEq _ _ ▸ hst).symm⟩

/-- C3: in every health verdict, a false control-plane or infrastructure
readiness flag forces `healthy = false` and contributes its issue string;
`workersReady` holds exactly when the Ready-condition machine count equals
the total machine count and that total is positive (so a cluster with zero
machines is never worker-ready); and a false `workersReady` contributes the
ready/total counts issue and forces `healthy = false`. -/
theorem cluster_health_readiness (s : Store) (nsp nm : String) (h : ClusterHealthStatus)
    (hh : getClusterHealth s nsp nm = some h) :
    (h.controlPlaneReady = false → h.healthy = false ∧ "Control plane is not ready" ∈ h.issues) ∧
    (h.infraReady = false → h.healthy = false ∧ "Infrastructure is not ready" ∈ h.issues) ∧
    (h.workersReady = true ↔
      (readyMachineCondCount s nsp nm = totalMachineCount s nsp nm ∧
        0 < totalMachineCount s nsp nm)) ∧
    (totalMachineCount s nsp nm = 0 → h.workersReady = false) ∧
    (h.workersReady = false → h.healthy = false ∧
      workersIssueMsg (readyMachineCondCount s nsp nm) (totalMachineCount s nsp nm) ∈ h.issues) := by
  obtain ⟨c, hg, rfl⟩ := getClusterHealth_some_inv s nsp nm h hh
  refine ⟨?_, ?_, ?_, ?_, ?_⟩
  · intro hcp
    simp only [healthSpec] at hcp ⊢
    simp [hcp]
  · intro hinf
    simp only [healthSpec] at hinf ⊢
    simp [hinf]
  · simp [healthSpec, workersReadyFlag]
  · intro htot
    simp [healthSpec, workersReadyFlag, htot]
  · intro hwf
    simp only [healthSpec] at hwf ⊢
    simp [hwf]

/-- C3 witness: the storeB fixture (two of three machines ready) instantiates
the readiness claim; its verdict is unhealthy with the 2/3 issue. -/
theorem cluster_health_readiness_witness :
    ((healthB.controlPlaneReady = false →
        healthB.healthy = false ∧ "Control plane is not ready" ∈ healthB.issues) ∧
      (healthB.infraReady = false →
        healthB.healthy = false ∧ "Infrastructure is not ready" ∈ healthB.issues) ∧
      (healthB.workersReady = true ↔
        (readyMachineCondCount storeB "default" "web" = totalMachineCount storeB "default" "web" ∧
          0 < totalMachineCount storeB "default" "web")) ∧
      (totalMachineCount storeB "default" "web" = 0 → healthB.workersReady = false) ∧
      (healthB.workersReady = false → healthB.healthy = false ∧
        workersIssueMsg (readyMachineCondCount storeB "default" "web")
          (totalMachineCount storeB "default" "web") ∈ healthB.issues)) ∧
    healthB.healthy = false ∧ healthB.issues = ["Only 2/3 machines are ready"] :=
  ⟨cluster_health_readiness storeB "default" "web" healthB (by decide),
    by decide, by decide⟩

/-- C8: every health verdict walks the cluster's condition list turning each
non-True Error-severity condition into an issue (forcing `healthy = false`
through the no-error-condition conjunct) and each non-True Warning-severity
condition into a warning that leaves `healthy` untouched, ignoring all other
severities; a non-empty phase other than "Provisioned" appends a warning
only; and issues and warnings keep discovery order: control-plane ->
infrastructure -> workers -> conditions -> phase. -/
theorem cluster_health_conditions_order (s : Store) (nsp nm : String) (h : ClusterHealthStatus)
    (hh : getClusterHealth s nsp nm = some h) :
    ∃ c, getCluster s nsp nm = some c ∧
      h.issues =
        (if c.controlPlaneReady then [] else ["Control plane is not ready"]) ++
        (if c.infrastructureReady then [] else ["Infrastructure is not ready"]) ++
        (if workersReadyFlag s nsp nm then []
         else [workersIssueMsg (readyMachineCondCount s nsp nm) (totalMachineCount s nsp nm)]) ++
        errorCondIssues c.conditions ∧
      h.warnings = warningCondMsgs c.conditions ++
        (if c.phase != "Provisioned" && c.phase != "" then [phaseWarnMsg c.phase] else []) ∧
      h.healthy = (c.controlPlaneReady && c.infrastructureReady && h.workersReady &&
        noErrorConds c.conditions) := by
  obtain ⟨c, hg, rfl⟩ := getClusterHealth_some_inv s nsp nm h hh
  exact ⟨c, hg, by simp [healthSpec], by simp [healthSpec], by simp [healthSpec]⟩

/-- C8 witness: the storeB fixture instantiates the condition-walk and
ordering claim. -/
theorem cluster_health_conditions_order_witness :
    ∃ c, getCluster storeB "default" "web" = some c ∧
      healthB.issues =
        (if c.controlPlaneReady then [] else ["Control plane is not ready"]) ++
        (if c.infrastructureReady then [] else ["Infrastructure is not ready"]) ++
        (if workersReadyFlag storeB "default" "web" then []
         else [workersIssueMsg (readyMachineCondCount storeB "default" "web")
            (totalMachineCount storeB "default" "web")]) ++
        errorCondIssues c.conditions ∧
      healthB.warnings = warningCondMsgs c.conditions ++
        (if c.phase != "Provisioned" && c.phase != "" then [phaseWarnMsg c.phase] else []) ∧
      healthB.healthy = (c.controlPlaneReady && c.infrastructureReady && healthB.workersReady &&
        noErrorConds c.conditions) :=
  cluster_health_conditions_order storeB "default" "web" healthB (by decide)

/-- C9 counterexample: in the storeC9 fixture the only machine carries a
Ready=True condition but no bound-node reference; GetClusterStatus reports
zero ready machines while one machine has the Ready condition, so the
reported ready-machine count is not derived from the Ready condition. -/
theorem status_ready_count_counterexample :
    getClusterStatus storeC9 "default" "web" = some statusC9 ∧
    statusC9.readyMachines = 0 ∧
    readyMachineCondCount storeC9 "default" "web" = 1 ∧
    statusC9.readyMachines ≠ readyMachineCondCount storeC9 "default" "web" := by
  refine ⟨?_, by decide, by decide, by decide⟩
  decide

/-- C9 amended: GetClusterStatus reports as its ready-machine count the
number of the cluster's machines with a non-nil bound-node reference; the
health evaluation (GetClusterHealth) instead derives worker readiness from
the count of machines with a Ready=True condition. -/
theorem status_ready_count_amended (s : Store) (nsp nm : String) (st : ClusterStatus)
    (hst : getClusterStatus s nsp nm = some st) :
    st.readyMachines = nodeRefMachineCount s nsp nm ∧
    ∀ h, getClusterHealth s nsp nm = some h →
      (h.workersReady = true ↔
        (readyMachineCondCount s nsp nm = totalMachineCount s nsp nm ∧
          0 < totalMachineCount s nsp nm)) := by
  obtain ⟨c, hg, rfl⟩ := getClusterStatus_some_inv s nsp nm st hst
  constructor
  · simp [clusterStatusOf, nodeRefMachineCount]
  · intro h hh
    obtain ⟨c2, _, rfl⟩ := getClusterHealth_some_inv s nsp nm h hh
    simp [healthSpec, workersReadyFlag]

/-- C9 amended witness: the storeC9 fixture instantiates the amended claim
(zero ready machines reported, one machine with a Ready condition). -/
theorem status_ready_count_amended_witness :
    (statusC9.readyMachines = nodeRefMachineCount storeC9 "default" "web" ∧
      ∀ h, getClusterHealth storeC9 "default" "web" = some h →
        (h.workersReady = true ↔
          (readyMachineCondCount storeC9 "default" "web" =
              totalMachineCount storeC9 "default" "web" ∧
            0 < totalMachineCount storeC9 "default" "web"))) :=
  status_ready_count_amended storeC9 "default" "web" statusC9 (by decide)

/-- C1: deleting a cluster whose Ready aggregate condition is True without
force stops at the safety check — the handler returns the safety-check
refusal (the spec's UnsafeDeleteError) and the store is untouched — while the
same request with force issues the delete, after which the cluster is gone. -/
theorem delete_cluster_safety (s : Store) (nsp nm : String) (c : Cluster)
    (hns : nsp ≠ "") (hnm : nm ≠ "")
    (hget : getCluster s nsp nm = some c)
    (hready : conditionsIsTrue c.conditions "Ready" = true) :
    deleteClusterHandler s nsp nm false = (DeleteClusterOutcome.safetyCheckFailed, s) ∧
    (deleteClusterHandler s nsp nm true).1 = DeleteClusterOutcome.deletionInitiated ∧
    (deleteClusterHandler s nsp nm true).2 = removeCluster s nsp nm ∧
    getCluster (deleteClusterHandler s nsp nm true).2 nsp nm = none := by
  have hns' : (nsp == "") = false := beq_eq_false_iff_ne.mpr hns
  have hnm' : (nm == "") = false := beq_eq_false_iff_ne.mpr hnm
  have hstatus : getClusterStatus s nsp nm = some (clusterStatusOf s nsp nm c) := by
    rw [getClusterStatus, hget]
  have hreadyfield : (clusterStatusOf s nsp nm c).ready = true := by
    simp [clusterStatusOf, hready]
  refine ⟨?_, ?_, ?_, ?_⟩
  · rw [deleteClusterHandler]
    simp [hns', hnm', hstatus, hreadyfield]
  · rw [deleteClusterHandler]
    simp [hns', hnm', hstatus, deleteCluster, hget]
  · rw [deleteClusterHandler]
    simp [hns', hnm', hstatus, deleteCluster, hget]
  · rw [deleteClusterHandler]
    simp only [hns', hnm', hstatus, deleteCluster, hget]
    simp [getCluster_removeCluster]

/-- C1 witness: the storeB fixture cluster default/web is Ready; an unforced
delete is refused with the store unchanged and a forced delete removes it. -/
theorem delete_cluster_safety_witness :
    deleteClusterHandler storeB "default" "web" false =
      (DeleteClusterOutcome.safetyCheckFailed, storeB) ∧
    (deleteClusterHandler storeB "default" "web" true).1 =
      DeleteClusterOutcome.deletionInitiated ∧
    (deleteClusterHandler storeB "default" "web" true).2 = removeCluster storeB "default" "web" ∧
    getCluster (deleteClusterHandler storeB "default" "web" true).2 "default" "web" = none :=
  delete_cluster_safety storeB "default" "web" clusterA (by decide) (by decide)
    (by decide) (by decide)

/-- C2: deleting a machine without force is refused with the spec's
UnsafeDeleteError when the machine has a HealthCheckSucceeded=True condition,
or (that check passing) when it is a control-plane machine; when neither
holds, or when forced, the delete call is issued and removes the machine. -/
theorem delete_machine_safety (s : Store) (nsp nm : String) (m : Machine)
    (hget : getMachine s nsp nm = some m) :
    (machineHealthCheckSucceeded m = true →
      deleteMachine s nsp nm false = Except.error (CapiError.forceRequired
        ("machine " ++ m.name ++ " is healthy, use force=true to delete anyway"))) ∧
    (machineHealthCheckSucceeded m = false → isControlPlaneMachine m = true →
      deleteMachine s nsp nm false = Except.error (CapiError.forceRequired
        ("cannot delete control plane machine " ++ m.name ++ " without force=true"))) ∧
    (machineHealthCheckSucceeded m = false → isControlPlaneMachine m = false →
      deleteMachine s nsp nm false = Except.ok (removeMachine s nsp nm)) ∧
    deleteMachine s nsp nm true = Except.ok (removeMachine s nsp nm) ∧
    getMachine (removeMachine s nsp nm) nsp nm = none := by
  refine ⟨?_, ?_, ?_, ?_, getMachine_removeMachine s nsp nm⟩
  · intro hh
    rw [deleteMachine, hget]
    simp [hh]
  · intro hh hcp
    rw [deleteMachine, hget]
    simp [hh, hcp]
  · intro hh hcp
    rw [deleteMachine, hget]
    simp [hh, hcp]
  · rw [deleteMachine, hget]
    simp

/-- C2 witness: the storeC2 fixture machine default/mh is healthy and not
control-plane; an unforced delete is refused, a forced delete removes it. -/
theorem delete_machine_safety_witness :
    ((machineHealthCheckSucceeded mHealthy = true →
      deleteMachine storeC2 "default" "mh" false = Except.error (CapiError.forceRequired
        ("machine " ++ mHealthy.name ++ " is healthy, use force=true to delete anyway"))) ∧
    (machineHealthCheckSucceeded mHealthy = false → isControlPlaneMachine mHealthy = true →
      deleteMachine storeC2 "default" "mh" false = Except.error (CapiError.forceRequired
        ("cannot delete control plane machine " ++ mHealthy.name ++ " without force=true"))) ∧
    (machineHealthCheckSucceeded mHealthy = false → isControlPlaneMachine mHealthy = false →
      deleteMachine storeC2 "default" "mh" false =
        Except.ok (removeMachine storeC2 "default" "mh")) ∧
    deleteMachine storeC2 "default" "mh" true =
      Except.ok (removeMachine storeC2 "default" "mh") ∧
    getMachine (removeMachine storeC2 "default" "mh") "default" "mh" = none) :=
  delete_machine_safety storeC2 "default" "mh" mHealthy (by decide)

/-- C4: ScaleCluster with target "workers" and an empty machine deployment
name fails with MissingTargetError, and any target other than "controlplane"
or "workers" fails with InvalidTargetError; both failures issue no store
access at all (empty access trace, no state change). -/
theorem scale_cluster_validation (s : Store) (nsp cn : String) (r : Int) (mdn t : String)
    (ht1 : t ≠ "controlplane") (ht2 : t ≠ "workers") :
    scaleCluster s nsp cn "workers" r "" = (Except.error CapiError.missingTarget, []) ∧
    scaleCluster s nsp cn t r mdn = (Except.error (CapiError.invalidTarget t), []) := by
  constructor
  · rfl
  · rw [scaleCluster, if_neg (by simp [ht1]), if_neg (by simp [ht2])]

/-- C4 witness: scaling workers of storeB with an empty deployment name, and
scaling with target "bogus", both fail before any store access. -/
theorem scale_cluster_validation_witness :
    scaleCluster storeB "default" "web" "workers" 5 "" =
      (Except.error CapiError.missingTarget, []) ∧
    scaleCluster storeB "default" "web" "bogus" 5 "md-1" =
      (Except.error (CapiError.invalidTarget "bogus"), []) :=
  scale_cluster_validation storeB "default" "web" 5 "md-1" "bogus" (by decide) (by decide)

/-- C10: ScaleCluster with target "controlplane" reads (and, when found,
updates) the KubeadmControlPlane named exactly like the cluster name passed
in, whereas CreateCluster builds a cluster whose control-plane reference
names "{name}-control-plane" — a strictly different name — so scaling a
cluster created by this system targets a differently-named object than its
control-plane reference. -/
theorem scale_controlplane_targets_cluster_name (s : Store) (nsp cn : String) (r : Int)
    (mdn : String) :
    ((scaleCluster s nsp cn "controlplane" r mdn).2 = [StoreOp.getKcp nsp cn] ∨
     (scaleCluster s nsp cn "controlplane" r mdn).2 =
       [StoreOp.getKcp nsp cn, StoreOp.updateKcp nsp cn]) ∧
    (∀ opts : CreateClusterOptions, (createClusterObject opts).controlPlaneRef =
      some { apiVersion := "controlplane.cluster.x-k8s.io/v1beta1"
             kind := "KubeadmControlPlane"
             name := opts.name ++ "-control-plane" }) ∧
    (∀ nm2 : String, nm2 ++ "-control-plane" ≠ nm2) := by
  refine ⟨?_, fun opts => rfl, ?_⟩
  · have h1 : scaleCluster s nsp cn "controlplane" r mdn = scaleControlPlane s nsp cn r := rfl
    rw [h1, scaleControlPlane]
    cases getKubeadmControlPlane s nsp cn with
    | none => exact Or.inl rfl
    | some kcp => exact Or.inr rfl
  · intro nm2 hcontra
    have hlen : (nm2 ++ "-control-plane").data.length = nm2.data.length := by rw [hcontra]
    rw [show (nm2 ++ "-control-plane").data = nm2.data ++ "-control-plane".data from rfl] at hlen
    simp at hlen

/-- C5: Pause and Resume are idempotent on the paused annotation: two Pauses
in a row both succeed and leave the marker present, Resume after Pause
succeeds and removes it, and Resume on a cluster without the marker succeeds
and leaves it absent. -/
theorem pause_resume_idempotent (s : Store) (nsp nm : String) (c : Cluster)
    (hget : getCluster s nsp nm = some c) :
    ∃ s1 c1, pauseCluster s nsp nm = Except.ok s1 ∧ getCluster s1 nsp nm = some c1 ∧
      hasKey c1.annotations pausedMarkerKey = true ∧
    ∃ s2 c2, pauseCluster s1 nsp nm = Except.ok s2 ∧ getCluster s2 nsp nm = some c2 ∧
      hasKey c2.annotations pausedMarkerKey = true ∧
    ∃ s3 c3, resumeCluster s2 nsp nm = Except.ok s3 ∧ getCluster s3 nsp nm = some c3 ∧
      hasKey c3.annotations pausedMarkerKey = false ∧
    ∃ s4 c4, resumeCluster s3 nsp nm = Except.ok s4 ∧ getCluster s4 nsp nm = some c4 ∧
      hasKey c4.annotations pausedMarkerKey = false := by
  obtain ⟨hcns, hcnm⟩ := getCluster_key s nsp nm c hget
  refine ⟨_, { c with annotations := setKey c.annotations pausedMarkerKey "true" },
    by rw [pauseCluster, hget], ?_, hasKey_setKey _ _ _, ?_⟩
  · exact getCluster_replaceCluster s nsp nm c _ hget hcns hcnm
  · set c1 : Cluster := { c with annotations := setKey c.annotations pausedMarkerKey "true" }
      with hc1
    set s1 : Store := replaceCluster s c1 with hs1
    have hget1 : getCluster s1 nsp nm = some c1 :=
      getCluster_replaceCluster s nsp nm c c1 hget hcns hcnm
    refine ⟨_, { c1 with annotations := setKey c1.annotations pausedMarkerKey "true" },
      by rw [pauseCluster, hget1], ?_, hasKey_setKey _ _ _, ?_⟩
    · exact getCluster_replaceCluster s1 nsp nm c1 _ hget1 hcns hcnm
    · set c2 : Cluster := { c1 with annotations := setKey c1.annotations pausedMarkerKey "true" }
        with hc2
      set s2 : Store := replaceCluster s1 c2 with hs2
      have hget2 : getCluster s2 nsp nm = some c2 :=
        getCluster_replaceCluster s1 nsp nm c1 c2 hget1 hcns hcnm
      refine ⟨_, { c2 with annotations := delKey c2.annotations pausedMarkerKey },
        by rw [resumeCluster, hget2], ?_, hasKey_delKey _ _, ?_⟩
      · exact getCluster_replaceCluster s2 nsp nm c2 _ hget2 hcns hcnm
      · set c3 : Cluster := { c2 with annotations := delKey c2.annotations pausedMarkerKey }
          with hc3
        set s3 : Store := replaceCluster s2 c3 with hs3
        have hget3 : getCluster s3 nsp nm = some c3 :=
          getCluster_replaceCluster s2 nsp nm c2 c3 hget2 hcns hcnm
        refine ⟨_, { c3 with annotations := delKey c3.annotations pausedMarkerKey },
          by rw [resumeCluster, hget3], ?_, hasKey_delKey _ _⟩
        exact getCluster_replaceCluster s3 nsp nm c3 _ hget3 hcns hcnm

/-- C5 witness: the storeB fixture cluster default/web instantiates the
Pause/Resume idempotence claim. -/
theorem pause_resume_idempotent_witness :
    ∃ s1 c1, pauseCluster storeB "default" "web" = Except.ok s1 ∧
      getCluster s1 "default" "web" = some c1 ∧
      hasKey c1.annotations pausedMarkerKey = true ∧
    ∃ s2 c2, pauseCluster s1 "default" "web" = Except.ok s2 ∧
      getCluster s2 "default" "web" = some c2 ∧
      hasKey c2.annotations pausedMarkerKey = true ∧
    ∃ s3 c3, resumeCluster s2 "default" "web" = Except.ok s3 ∧
      getCluster s3 "default" "web" = some c3 ∧
      hasKey c3.annotations pausedMarkerKey = false ∧
    ∃ s4 c4, resumeCluster s3 "default" "web" = Except.ok s4 ∧
      getCluster s4 "default" "web" = some c4 ∧
      hasKey c4.annotations pausedMarkerKey = false :=
  pause_resume_idempotent storeB "default" "web" clusterA (by decide)

/-- C6 counterexample: on a cluster with no infrastructure reference,
GetProviderForCluster returns unknown together with an error — not "unknown
without an error" as claimed. -/
theorem provider_missing_ref_counterexample :
    getProviderForCluster storeC6 "default" "noref" =
      (Provider.unknown, some CapiError.noInfraRef) ∧
    (getProviderForCluster storeC6 "default" "noref").2 ≠ none := by
  constructor
  · decide
  · decide

/-- C6 amended: provider classification is a case-sensitive exact match on
the infrastructure-reference kind; an unmapped kind yields unknown without an
error, while a missing infrastructure reference yields unknown together with
an error — which GetClusterStatus discards, so a status read still succeeds
and reports the provider it obtained. -/
theorem provider_classification_amended (s : Store) (nsp nm : String) (c : Cluster)
    (hget : getCluster s nsp nm = some c) :
    (∀ r, c.infrastructureRef = some r →
      getProviderForCluster s nsp nm = (kindToProvider r.kind, none)) ∧
    (c.infrastructureRef = none →
      getProviderForCluster s nsp nm = (Provider.unknown, some CapiError.noInfraRef)) ∧
    getClusterStatus s nsp nm = some (clusterStatusOf s nsp nm c) ∧
    (clusterStatusOf s nsp nm c).provider = (getProviderForCluster s nsp nm).1 := by
  refine ⟨?_, ?_, by rw [getClusterStatus, hget], by simp [clusterStatusOf]⟩
  · intro r hr
    simp only [getProviderForCluster, hget, hr, kindToProvider]
    split_ifs <;> rfl
  · intro hr
    simp only [getProviderForCluster, hget, hr]

/-- C6 amended witness: the storeC6 fixture cluster has no infrastructure
reference; classification errors but the status read still succeeds. -/
theorem provider_classification_amended_witness :
    ((∀ r, clusterNoRef.infrastructureRef = some r →
      getProviderForCluster storeC6 "default" "noref" = (kindToProvider r.kind, none)) ∧
    (clusterNoRef.infrastructureRef = none →
      getProviderForCluster storeC6 "default" "noref" =
        (Provider.unknown, some CapiError.noInfraRef)) ∧
    getClusterStatus storeC6 "default" "noref" =
      some (clusterStatusOf storeC6 "default" "noref" clusterNoRef) ∧
    (clusterStatusOf storeC6 "default" "noref" clusterNoRef).provider =
      (getProviderForCluster storeC6 "default" "noref").1) :=
  provider_classification_amended storeC6 "default" "noref" clusterNoRef (by decide)

/-- DrainNode always hands a signal back: it never reports a completed
drain. -/
lemma drainNode_always_signals (s : Store) (opts : NodeOperationOptions) :
    (drainNode s opts).2 ≠ none := by
  rw [drainNode]
  cases hres : resolveNodeName s opts with
  | error e => simp
  | ok nn =>
    cases hnode : getNode s nn with
    | none => simp [hnode]
    | some node => simp [hnode]

/-- The drain handler never produces the full-success report. -/
lemma drainNodeHandler_never_full_success (s : Store) (opts : NodeOperationOptions) :
    (drainNodeHandler s opts).1 ≠ DrainOutcome.fullSuccessReport := by
  rw [drainNodeHandler]
  by_cases hguard : (opts.nodeName == "" && (opts.ns == "" || opts.machineName == "")) = true
  · simp [hguard]
  · simp only [hguard]
    have hsig := drainNode_always_signals s opts
    cases hd : drainNode s opts with
    | mk s2 sig =>
      cases sig with
      | none => rw [hd] at hsig; simp at hsig
      | some sg =>
        simp only [Bool.false_eq_true, if_neg hguard]
        cases hm : drainSignalHasCordonMarker sg <;> simp [hm]

/-- C7: a drain request on a resolvable node cordons it — afterwards the
node's unschedulable flag is true — performs no pod eviction, and reports the
cordoned-but-not-evicted outcome; the handler can never claim full drain
success. -/
theorem drain_cordon_only (s : Store) (opts : NodeOperationOptions) (nn : String) (node : Node)
    (hres : resolveNodeName s opts = Except.ok nn)
    (hnode : getNode s nn = some node) :
    (drainNodeHandler s opts).1 = DrainOutcome.cordonOnlyReport ∧
    getNode (drainNodeHandler s opts).2 nn = some { node with unschedulable := true } ∧
    ∀ s2 opts2, (drainNodeHandler s2 opts2).1 ≠ DrainOutcome.fullSuccessReport := by
  have hname : node.name = nn := getNode_key s nn node hnode
  have hguard : (opts.nodeName == "" && (opts.ns == "" || opts.machineName == "")) = false := by
    rw [resolveNodeName] at hres
    by_cases hn : (opts.nodeName != "") = true
    · simp only [bne_iff_ne, ne_eq] at hn
      simp [hn]
    · rw [if_neg hn] at hres
      by_cases hb : (opts.ns != "" && opts.machineName != "") = true
      · simp only [Bool.and_eq_true, bne_iff_ne, ne_eq] at hb
        simp [hb.1, hb.2]
      · rw [if_neg hb] at hres
        cases hres
  have hdrain : drainNode s opts =
      (replaceNode s { node with unschedulable := true },
        some (DrainSignal.cordonedOnly nn)) := by
    simp only [drainNode, hres, hnode]
  refine ⟨?_, ?_, drainNodeHandler_never_full_success⟩
  · rw [drainNodeHandler, if_neg (by simp [hguard]), hdrain]
    rfl
  · rw [drainNodeHandler, if_neg (by simp [hguard]), hdrain]
    exact getNode_replaceNode s nn node _ hnode hname

/-- C7 witness: draining worker-1 in the storeC7 fixture cordons it and
reports the cordoned-but-not-evicted outcome. -/
theorem drain_cordon_only_witness :
    (drainNodeHandler storeC7 optsC7).1 = DrainOutcome.cordonOnlyReport ∧
    getNode (drainNodeHandler storeC7 optsC7).2 "worker-1" =
      some { name := "worker-1", unschedulable := true } ∧
    ∀ s2 opts2, (drainNodeHandler s2 opts2).1 ≠ DrainOutcome.fullSuccessReport :=
  drain_cordon_only storeC7 optsC7 "worker-1" { name := "worker-1", unschedulable := false }
    (by rfl) (by decide)

end McpCapi
